import Mathlib

/-!
Verification of the reconciliation core of `dapr-cert-transformer`
(`src/main.go`): a Kubernetes controller that watches one Secret and copies
two byte fields (a certificate and a private key) from configured source
keys to configured destination keys whenever they diverge.

The embedding models:
- byte sequences (`[]byte`) as `Bytes := List Nat`, compared as Go compares
  `string(b1) != string(b2)`, i.e. exact byte-sequence equality;
- the Secret's `Data map[string][]byte` as an optional association list,
  `none` standing for a nil Go map (lookups on a nil map succeed with the
  zero value and `ok = false`; assignment into a nil map panics);
- the package-level configuration variables (`daprTrustBundleNamespace`,
  `daprTrustBundleName`, `certSourceKey`, `certDestKey`, `keySourceKey`,
  `keyDestKey`) as an explicit `Config` record;
- `Reconcile` as a function of the request plus the remote store's responses
  (fetch result, update result), returning `none` for a runtime panic and
  otherwise a trace recording the number of reads and writes, the submitted
  Secret, and success/failure.
-/

/-- Opaque byte sequences (`[]byte` in Go). -/
abbrev Bytes := List Nat

/-- Lookup in a Go `map[string][]byte`: the value bound to the first (only)
occurrence of the key, `none` when absent. -/
def mapLookup : List (String × Bytes) → String → Option Bytes
  | [], _ => none
  | (k', v) :: rest, k => if k' = k then some v else mapLookup rest k

/-- Assignment `m[k] = v` in a Go map: replace the binding of `k`, or append
a fresh binding when `k` is absent. -/
def mapInsert : List (String × Bytes) → String → Bytes → List (String × Bytes)
  | [], k, v => [(k, v)]
  | (k', v') :: rest, k, v =>
      if k' = k then (k, v) :: rest else (k', v') :: mapInsert rest k v

/-- The package-level configuration variables of `main.go` (lines 31-36),
set once by `parseFlags` and immutable during reconciliation. -/
structure Config where
  daprTrustBundleNamespace : String
  daprTrustBundleName : String
  certSourceKey : String
  certDestKey : String
  keySourceKey : String
  keyDestKey : String
deriving DecidableEq

/-- `client.ObjectKey` / `types.NamespacedName`: the identity of a resource. -/
structure ObjectKey where
  Namespace : String
  Name : String
deriving DecidableEq

/-- `corev1.Secret`, restricted to what the program touches: its
`Data map[string][]byte`. `none` models a nil map. -/
structure Secret where
  Data : Option (List (String × Bytes))
deriving DecidableEq

/-- The two-valued read `v, ok := s.Data[k]` as an `Option`: `none` when the
map is nil or the key absent. -/
def lookupData (s : Secret) (k : String) : Option Bytes :=
  match s.Data with
  | none => none
  | some m => mapLookup m k

/-- The one-valued read `s.Data[k]`: the bound value, or the zero value
(nil slice, i.e. the empty byte sequence) when absent. -/
def getData (s : Secret) (k : String) : Bytes :=
  (lookupData s k).getD []

/-- `main.go:51-53`: the watched-resource check, true iff the request's
namespace and name both equal the configured ones. -/
def isDaprTrustBundleSecret (cfg : Config) (o : ObjectKey) : Bool :=
  o.Namespace == cfg.daprTrustBundleNamespace && o.Name == cfg.daprTrustBundleName

/-- `main.go:55-61`: the staleness check. Both source keys must be present
(`tlsCrtOk && tlsKeyOk`), and at least one destination value — read with the
zero value `""` when absent — must differ byte-for-byte from its source.  -/
def needsDaprTrustBundleSecretUpdate (cfg : Config) (s : Secret) : Bool :=
  let tlsCrt := getData s cfg.certSourceKey
  let tlsCrtOk := (lookupData s cfg.certSourceKey).isSome
  let tlsKey := getData s cfg.keySourceKey
  let tlsKeyOk := (lookupData s cfg.keySourceKey).isSome
  let issuerCrt := getData s cfg.certDestKey
  let issuerKey := getData s cfg.keyDestKey
  tlsCrtOk && tlsKeyOk && (tlsCrt ≠ issuerCrt || tlsKey ≠ issuerKey)

/-- The assignment `s.Data[k] = v`. Assigning into a nil map is a runtime
panic in Go, modelled as `none`. -/
def assignData (s : Secret) (k : String) (v : Bytes) : Option Secret :=
  match s.Data with
  | none => none
  | some m => some ⟨some (mapInsert m k v)⟩

/-- Outcome of `a.Get(ctx, req.NamespacedName, s)`: the fetched Secret, or a
remote-read error. -/
inductive FetchResult where
  | ok (s : Secret)
  | err
deriving DecidableEq

/-- Outcome the remote store gives to `a.Update(ctx, s)` when a write is
attempted. -/
inductive UpdateResult where
  | ok
  | err
deriving DecidableEq

/-- Observable trace of one `Reconcile` invocation: how many remote reads
and writes it issued, the Secret it submitted (if any), and whether it
returned a nil error. -/
structure ReconcileTrace where
  reads : Nat
  writes : Nat
  written : Option Secret
  success : Bool
deriving DecidableEq

/-- `main.go:127-159`: `DaprSecretReconciler.Reconcile`, as a function of the
request and of the remote store's responses. Returns `none` when the body
would panic (assignment into a nil map), else the trace of the invocation:
1. a non-watched request is skipped with no read, no write, success;
2. a failed fetch is reported upward, one read, no write;
3. an up-to-date Secret is left alone, one read, no write, success;
4. otherwise both destination fields are overwritten in order and the
   mutated Secret submitted once, success iff the update succeeds. -/
def Reconcile (cfg : Config) (req : ObjectKey) (fetch : FetchResult)
    (upd : UpdateResult) : Option ReconcileTrace :=
  if isDaprTrustBundleSecret cfg req = false then
    some ⟨0, 0, none, true⟩
  else
    match fetch with
    | FetchResult.err => some ⟨1, 0, none, false⟩
    | FetchResult.ok s =>
      if needsDaprTrustBundleSecretUpdate cfg s = false then
        some ⟨1, 0, none, true⟩
      else
        match assignData s cfg.certDestKey (getData s cfg.certSourceKey) with
        | none => none
        | some s1 =>
          match assignData s1 cfg.keyDestKey (getData s1 cfg.keySourceKey) with
          | none => none
          | some s2 =>
            match upd with
            | UpdateResult.ok => some ⟨1, 1, some s2, true⟩
            | UpdateResult.err => some ⟨1, 1, some s2, false⟩

/-- The default configuration of `main.go:31-36` (namespace left at `""` for
concreteness; witnesses pair it with a request in that namespace). -/
def defaultConfig : Config :=
  { daprTrustBundleNamespace := ""
    daprTrustBundleName := "dapr-trust-bundle"
    certSourceKey := "tls.crt"
    certDestKey := "issuer.crt"
    keySourceKey := "tls.key"
    keyDestKey := "issuer.key" }

/-- The request identity matching `defaultConfig`. -/
def defaultKey : ObjectKey := ⟨"", "dapr-trust-bundle"⟩

/-! ## Map lemmas -/

theorem mapLookup_mapInsert_self (m : List (String × Bytes)) (k : String) (v : Bytes) :
    mapLookup (mapInsert m k v) k = some v := by
  induction m with
  | nil => simp [mapInsert, mapLookup]
  | cons p rest ih =>
    obtain ⟨k', v'⟩ := p
    by_cases h : k' = k
    · simp [mapInsert, mapLookup, h]
    · simp [mapInsert, mapLookup, h, ih]

theorem mapLookup_mapInsert_ne (m : List (String × Bytes)) (k : String) (v : Bytes)
    (k' : String) (h : k' ≠ k) :
    mapLookup (mapInsert m k v) k' = mapLookup m k' := by
  have hne : ¬k = k' := fun hh => h hh.symm
  induction m with
  | nil => simp [mapInsert, mapLookup, hne]
  | cons p rest ih =>
    obtain ⟨kh, vh⟩ := p
    by_cases hh : kh = k
    · subst hh
      simp [mapInsert, mapLookup, hne]
    · by_cases hk' : kh = k'
      · subst hk'
        simp [mapInsert, mapLookup, hh]
      · simp [mapInsert, mapLookup, hh, hk', ih]

theorem mapLookup_mapInsert_isSome (m : List (String × Bytes)) (k : String) (v : Bytes)
    (k' : String) (h : (mapLookup m k').isSome = true) :
    (mapLookup (mapInsert m k v) k').isSome = true := by
  by_cases hk : k' = k
  · subst hk; simp [mapLookup_mapInsert_self]
  · rw [mapLookup_mapInsert_ne m k v k' hk]; exact h

/-! ## The staleness check, characterised -/

/-- The boolean returned by the staleness check, as a proposition: both
source keys present, and at least one destination value (the empty sequence
when the key is absent) differs from its source. -/
theorem needsUpdate_characterisation (cfg : Config) (s : Secret) :
    needsDaprTrustBundleSecretUpdate cfg s = true ↔
      ((lookupData s cfg.certSourceKey).isSome = true ∧
       (lookupData s cfg.keySourceKey).isSome = true ∧
       (getData s cfg.certSourceKey ≠ getData s cfg.certDestKey ∨
        getData s cfg.keySourceKey ≠ getData s cfg.keyDestKey)) := by
  simp [needsDaprTrustBundleSecretUpdate, and_assoc]

/-- A Secret that passes the staleness check has a non-nil data map. -/
theorem needsUpdate_data_some (cfg : Config) (s : Secret)
    (h : needsDaprTrustBundleSecretUpdate cfg s = true) :
    ∃ m, s.Data = some m := by
  rcases hm : s.Data with _ | m
  · rw [needsUpdate_characterisation] at h
    simp [lookupData, hm] at h
  · exact ⟨m, rfl⟩

/-- Unfolding of the update branch of `Reconcile` (`main.go:148-155`): on a
watched request with a stale Secret, both destination keys are assigned in
order and the mutated Secret is submitted once. -/
theorem Reconcile_update_eq (cfg : Config) (req : ObjectKey) (s : Secret)
    (u : UpdateResult) (m : List (String × Bytes))
    (hw : isDaprTrustBundleSecret cfg req = true)
    (hn : needsDaprTrustBundleSecretUpdate cfg s = true)
    (hm : s.Data = some m) :
    Reconcile cfg req (FetchResult.ok s) u =
      some ⟨1, 1,
        some ⟨some (mapInsert
          (mapInsert m cfg.certDestKey (getData s cfg.certSourceKey))
          cfg.keyDestKey
          (getData ⟨some (mapInsert m cfg.certDestKey (getData s cfg.certSourceKey))⟩
            cfg.keySourceKey))⟩,
        decide (u = UpdateResult.ok)⟩ := by
  cases u <;> simp [Reconcile, hw, hn, assignData, hm]

/-! ## Claims about the staleness check -/

/-- C1: the staleness check returns true iff both source fields are present
and at least one destination value (the value the payload map delivers for
the destination key, i.e. the empty byte sequence when the key is absent)
differs byte-for-byte from its source value; in particular, when either
source field is absent it returns false. -/
theorem claim1_needsUpdate_iff (cfg : Config) (s : Secret) :
    (needsDaprTrustBundleSecretUpdate cfg s = true ↔
      ((lookupData s cfg.certSourceKey).isSome = true ∧
       (lookupData s cfg.keySourceKey).isSome = true ∧
       (getData s cfg.certDestKey ≠ getData s cfg.certSourceKey ∨
        getData s cfg.keyDestKey ≠ getData s cfg.keySourceKey))) ∧
    ((lookupData s cfg.certSourceKey = none ∨ lookupData s cfg.keySourceKey = none) →
      needsDaprTrustBundleSecretUpdate cfg s = false) := by
  constructor
  · rw [needsUpdate_characterisation]
    exact ⟨fun ⟨a, b, c⟩ => ⟨a, b, c.imp Ne.symm Ne.symm⟩,
           fun ⟨a, b, c⟩ => ⟨a, b, c.imp Ne.symm Ne.symm⟩⟩
  · intro hnone
    cases hres : needsDaprTrustBundleSecretUpdate cfg s
    · rfl
    · exfalso
      rw [needsUpdate_characterisation] at hres
      rcases hres with ⟨a, b, _⟩
      rcases hnone with h1 | h1
      · rw [h1] at a; exact Bool.false_ne_true a
      · rw [h1] at b; exact Bool.false_ne_true b

/-- A payload whose two source fields are present but empty, with both
destination fields absent. -/
def emptySourcesSecret : Secret := ⟨some [("tls.crt", []), ("tls.key", [])]⟩

/-- C2 counterexample: a payload with both source fields present (holding
empty byte sequences) and both destination fields absent, on which the
staleness check nevertheless returns false — refuting the claim that an
absent destination field always counts as different from a present source
field regardless of the source value. -/
theorem claim2_counterexample :
    (lookupData emptySourcesSecret defaultConfig.certSourceKey).isSome = true ∧
    (lookupData emptySourcesSecret defaultConfig.keySourceKey).isSome = true ∧
    lookupData emptySourcesSecret defaultConfig.certDestKey = none ∧
    lookupData emptySourcesSecret defaultConfig.keyDestKey = none ∧
    needsDaprTrustBundleSecretUpdate defaultConfig emptySourcesSecret = false := by
  decide

/-- C2 (amended): if both source fields are present and at least one
destination field is absent while the corresponding source value is
non-empty, the staleness check returns true. (An absent destination field
is read as the empty byte sequence, so it compares equal to a present but
empty source field; the original claim's "regardless of the source field's
value, including an empty byte sequence" fails exactly there.) -/
theorem claim2_amended (cfg : Config) (s : Secret)
    (hc : (lookupData s cfg.certSourceKey).isSome = true)
    (hk : (lookupData s cfg.keySourceKey).isSome = true)
    (habs : (lookupData s cfg.certDestKey = none ∧ getData s cfg.certSourceKey ≠ []) ∨
            (lookupData s cfg.keyDestKey = none ∧ getData s cfg.keySourceKey ≠ [])) :
    needsDaprTrustBundleSecretUpdate cfg s = true := by
  rw [needsUpdate_characterisation]
  refine ⟨hc, hk, ?_⟩
  rcases habs with ⟨hnone, hne⟩ | ⟨hnone, hne⟩
  · exact Or.inl (by simpa [getData, hnone] using hne)
  · exact Or.inr (by simpa [getData, hnone] using hne)

/-- A payload with non-empty source fields and no destination fields. -/
def absentDestSecret : Secret := ⟨some [("tls.crt", [1]), ("tls.key", [2])]⟩

/-- C2 witness: the amended claim at a concrete payload with non-empty
sources and absent destinations. -/
theorem claim2_witness :
    ((lookupData absentDestSecret defaultConfig.certSourceKey).isSome = true ∧
     (lookupData absentDestSecret defaultConfig.certDestKey = none ∧
      getData absentDestSecret defaultConfig.certSourceKey ≠ [])) ∧
    needsDaprTrustBundleSecretUpdate defaultConfig absentDestSecret = true :=
  ⟨⟨by decide, by decide, by decide⟩,
   claim2_amended defaultConfig absentDestSecret (by decide) (by decide)
     (Or.inl ⟨by decide, by decide⟩)⟩

/-! ## Claims about the watched-resource check -/

/-- C3: the watched-resource check returns true iff the identity's namespace
equals the configured namespace and its name equals the configured name;
every other identity yields false. -/
theorem claim3_isWatched_iff (cfg : Config) (o : ObjectKey) :
    isDaprTrustBundleSecret cfg o = true ↔
      (o.Namespace = cfg.daprTrustBundleNamespace ∧ o.Name = cfg.daprTrustBundleName) := by
  simp [isDaprTrustBundleSecret]

/-! ## Claims about Reconcile -/

/-- C4: on a payload the staleness check rejects, Reconcile issues zero
writes, submits nothing, and returns success — so a second invocation in
succession on an already-synchronized resource (which fetches the same,
unmodified payload) performs no write either. -/
theorem claim4_steady_state_no_write (cfg : Config) (req : ObjectKey) (s : Secret)
    (u : UpdateResult) (h : needsDaprTrustBundleSecretUpdate cfg s = false) :
    ∃ t, Reconcile cfg req (FetchResult.ok s) u = some t ∧
      t.writes = 0 ∧ t.written = none ∧ t.success = true := by
  cases hw : isDaprTrustBundleSecret cfg req
  · exact ⟨⟨0, 0, none, true⟩, by simp [Reconcile, hw], rfl, rfl, rfl⟩
  · exact ⟨⟨1, 0, none, true⟩, by simp [Reconcile, hw, h], rfl, rfl, rfl⟩

/-- Scenario B's payload: destinations already equal to the sources. -/
def syncedSecret : Secret :=
  ⟨some [("tls.crt", [1]), ("tls.key", [2]), ("issuer.crt", [1]), ("issuer.key", [2])]⟩

/-- C4 witness: the steady-state no-write theorem at Scenario B's payload. -/
theorem claim4_witness :
    needsDaprTrustBundleSecretUpdate defaultConfig syncedSecret = false ∧
    (∃ t, Reconcile defaultConfig defaultKey (FetchResult.ok syncedSecret) UpdateResult.ok
        = some t ∧ t.writes = 0 ∧ t.written = none ∧ t.success = true) :=
  ⟨by decide,
   claim4_steady_state_no_write defaultConfig defaultKey syncedSecret UpdateResult.ok (by decide)⟩

/-- C5: on a watched, stale payload, Reconcile issues exactly one write, and
the submitted payload holds the source cert value under the destination cert
key and the source key value under the destination key key. (The two
destination keys are taken distinct from each other and the cert destination
key distinct from the key source key, as in any sensible key mapping —
otherwise the second in-place assignment of `main.go:149` would clobber or
read the field the first one wrote.) -/
theorem claim5_write_path_copies (cfg : Config) (req : ObjectKey) (s : Secret)
    (u : UpdateResult)
    (hw : isDaprTrustBundleSecret cfg req = true)
    (hn : needsDaprTrustBundleSecretUpdate cfg s = true)
    (hdd : cfg.certDestKey ≠ cfg.keyDestKey)
    (hds : cfg.certDestKey ≠ cfg.keySourceKey) :
    ∃ t s2, Reconcile cfg req (FetchResult.ok s) u = some t ∧
      t.writes = 1 ∧ t.written = some s2 ∧
      lookupData s2 cfg.certDestKey = some (getData s cfg.certSourceKey) ∧
      lookupData s2 cfg.keyDestKey = some (getData s cfg.keySourceKey) := by
  obtain ⟨m, hm⟩ := needsUpdate_data_some cfg s hn
  have hkey : getData
      ⟨some (mapInsert m cfg.certDestKey (getData s cfg.certSourceKey))⟩ cfg.keySourceKey
      = getData s cfg.keySourceKey := by
    simp only [getData, lookupData, hm]
    rw [mapLookup_mapInsert_ne _ _ _ _ (Ne.symm hds)]
  refine ⟨_, _, Reconcile_update_eq cfg req s u m hw hn hm, rfl, rfl, ?_, ?_⟩
  · simp only [lookupData]
    rw [mapLookup_mapInsert_ne _ cfg.keyDestKey _ cfg.certDestKey hdd,
      mapLookup_mapInsert_self]
  · simp only [lookupData]
    rw [mapLookup_mapInsert_self, hkey]

/-- Scenario A's payload: fresh sources, empty destinations. -/
def scenarioASecret : Secret :=
  ⟨some [("tls.crt", [67, 49]), ("tls.key", [75, 49]),
         ("issuer.crt", []), ("issuer.key", [])]⟩

/-- C5 witness: the write-path theorem at Scenario A's payload under the
default configuration. -/
theorem claim5_witness :
    (isDaprTrustBundleSecret defaultConfig defaultKey = true ∧
     needsDaprTrustBundleSecretUpdate defaultConfig scenarioASecret = true ∧
     defaultConfig.certDestKey ≠ defaultConfig.keyDestKey ∧
     defaultConfig.certDestKey ≠ defaultConfig.keySourceKey) ∧
    (∃ t s2, Reconcile defaultConfig defaultKey (FetchResult.ok scenarioASecret)
          UpdateResult.ok = some t ∧
      t.writes = 1 ∧ t.written = some s2 ∧
      lookupData s2 defaultConfig.certDestKey
        = some (getData scenarioASecret defaultConfig.certSourceKey) ∧
      lookupData s2 defaultConfig.keyDestKey
        = some (getData scenarioASecret defaultConfig.keySourceKey)) :=
  ⟨⟨by decide, by decide, by decide, by decide⟩,
   claim5_write_path_copies defaultConfig defaultKey scenarioASecret UpdateResult.ok
     (by decide) (by decide) (by decide) (by decide)⟩

/-- C6: a request that does not match the configured watch target is skipped
with zero reads, zero writes, nothing submitted, and a success return. -/
theorem claim6_unwatched_noop (cfg : Config) (req : ObjectKey) (f : FetchResult)
    (u : UpdateResult) (h : isDaprTrustBundleSecret cfg req = false) :
    Reconcile cfg req f u = some ⟨0, 0, none, true⟩ := by
  simp [Reconcile, h]

/-- C6 witness: an identity in another namespace is skipped untouched. -/
theorem claim6_witness :
    isDaprTrustBundleSecret defaultConfig ⟨"other-ns", "dapr-trust-bundle"⟩ = false ∧
    Reconcile defaultConfig ⟨"other-ns", "dapr-trust-bundle"⟩ FetchResult.err
        UpdateResult.err = some ⟨0, 0, none, true⟩ :=
  ⟨by decide,
   claim6_unwatched_noop defaultConfig ⟨"other-ns", "dapr-trust-bundle"⟩ FetchResult.err
     UpdateResult.err (by decide)⟩

/-- C7: Reconcile returns a failure iff the request is watched and either
the fetch failed or a write was attempted (the payload was stale) and
failed; after a fetch failure no write is attempted, and no invocation ever
issues more than one read or one write (no local retry). -/
theorem claim7_failure_iff (cfg : Config) (req : ObjectKey) (f : FetchResult)
    (u : UpdateResult) :
    ∃ t, Reconcile cfg req f u = some t ∧
      (t.success = false ↔
        (isDaprTrustBundleSecret cfg req = true ∧
          (f = FetchResult.err ∨
            ∃ s, f = FetchResult.ok s ∧
              needsDaprTrustBundleSecretUpdate cfg s = true ∧
              u = UpdateResult.err))) ∧
      (f = FetchResult.err → t.writes = 0) ∧
      t.reads ≤ 1 ∧ t.writes ≤ 1 := by
  cases hw : isDaprTrustBundleSecret cfg req
  · refine ⟨⟨0, 0, none, true⟩, by simp [Reconcile, hw], ?_, ?_, ?_, ?_⟩ <;> simp [hw]
  · cases f with
    | err =>
      refine ⟨⟨1, 0, none, false⟩, by simp [Reconcile, hw], ?_, ?_, ?_, ?_⟩ <;> simp [hw]
    | ok s =>
      cases hn : needsDaprTrustBundleSecretUpdate cfg s
      · refine ⟨⟨1, 0, none, true⟩, by simp [Reconcile, hw, hn], ?_, ?_, ?_, ?_⟩ <;>
          simp [hw, hn]
      · obtain ⟨m, hm⟩ := needsUpdate_data_some cfg s hn
        cases u
        · refine ⟨_, Reconcile_update_eq cfg req s UpdateResult.ok m hw hn hm,
            ?_, ?_, ?_, ?_⟩ <;> simp [hw, hn]
        · refine ⟨_, Reconcile_update_eq cfg req s UpdateResult.err m hw hn hm,
            ?_, ?_, ?_, ?_⟩ <;> simp [hw, hn]

/-- C8: on the write path Reconcile mutates only the two destination fields:
in the submitted payload every key other than the destination cert key and
the destination key key is bound exactly as in the fetched payload, and no
key present before is absent after. -/
theorem claim8_write_path_frame (cfg : Config) (req : ObjectKey) (s : Secret)
    (u : UpdateResult)
    (hw : isDaprTrustBundleSecret cfg req = true)
    (hn : needsDaprTrustBundleSecretUpdate cfg s = true) :
    ∃ t s2, Reconcile cfg req (FetchResult.ok s) u = some t ∧ t.written = some s2 ∧
      (∀ k, k ≠ cfg.certDestKey → k ≠ cfg.keyDestKey →
        lookupData s2 k = lookupData s k) ∧
      (∀ k, (lookupData s k).isSome = true → (lookupData s2 k).isSome = true) := by
  obtain ⟨m, hm⟩ := needsUpdate_data_some cfg s hn
  refine ⟨_, _, Reconcile_update_eq cfg req s u m hw hn hm, rfl, ?_, ?_⟩
  · intro k hk1 hk2
    simp only [lookupData, hm]
    rw [mapLookup_mapInsert_ne _ _ _ _ hk2, mapLookup_mapInsert_ne _ _ _ _ hk1]
  · intro k hk
    have hk' : (mapLookup m k).isSome = true := by simpa [lookupData, hm] using hk
    simp only [lookupData]
    exact mapLookup_mapInsert_isSome _ _ _ _ (mapLookup_mapInsert_isSome _ _ _ _ hk')

/-- A stale payload carrying an unrelated extra field. -/
def extraFieldSecret : Secret :=
  ⟨some [("tls.crt", [3]), ("tls.key", [4]), ("extra", [5])]⟩

/-- C8 witness: the frame theorem at a concrete stale payload with an extra
field. -/
theorem claim8_witness :
    (isDaprTrustBundleSecret defaultConfig defaultKey = true ∧
     needsDaprTrustBundleSecretUpdate defaultConfig extraFieldSecret = true) ∧
    (∃ t s2, Reconcile defaultConfig defaultKey (FetchResult.ok extraFieldSecret)
          UpdateResult.ok = some t ∧ t.written = some s2 ∧
      (∀ k, k ≠ defaultConfig.certDestKey → k ≠ defaultConfig.keyDestKey →
        lookupData s2 k = lookupData extraFieldSecret k) ∧
      (∀ k, (lookupData extraFieldSecret k).isSome = true →
        (lookupData s2 k).isSome = true)) :=
  ⟨⟨by decide, by decide⟩,
   claim8_write_path_frame defaultConfig defaultKey extraFieldSecret UpdateResult.ok
     (by decide) (by decide)⟩

/-- C9: Reconcile never panics: in particular the destination-field
assignments never hit a nil data map, because the staleness check only
passes when both source fields are present, which forces the map to be
non-nil. -/
theorem claim9_never_panics (cfg : Config) (req : ObjectKey) (f : FetchResult)
    (u : UpdateResult) : (Reconcile cfg req f u).isSome = true := by
  cases hw : isDaprTrustBundleSecret cfg req
  · simp [Reconcile, hw]
  · cases f with
    | err => simp [Reconcile, hw]
    | ok s =>
      cases hn : needsDaprTrustBundleSecretUpdate cfg s
      · simp [Reconcile, hw, hn]
      · obtain ⟨m, hm⟩ := needsUpdate_data_some cfg s hn
        cases u <;> simp [Reconcile, hw, hn, assignData, hm]

/-- Under a configuration whose destination keys alias its source keys, the
staleness check compares each field with itself and always fails. -/
theorem aliased_needsUpdate_false (cfg : Config)
    (hc : cfg.certDestKey = cfg.certSourceKey)
    (hk : cfg.keyDestKey = cfg.keySourceKey) (s : Secret) :
    needsDaprTrustBundleSecretUpdate cfg s = false := by
  simp [needsDaprTrustBundleSecretUpdate, hc, hk]

/-- C10: if the configuration aliases the destination keys to the source
keys, the staleness check returns false on every payload, so Reconcile
never issues a write. -/
theorem claim10_aliased_config_never_writes (cfg : Config) (s : Secret)
    (req : ObjectKey) (f : FetchResult) (u : UpdateResult)
    (hc : cfg.certDestKey = cfg.certSourceKey)
    (hk : cfg.keyDestKey = cfg.keySourceKey) :
    needsDaprTrustBundleSecretUpdate cfg s = false ∧
    ∃ t, Reconcile cfg req f u = some t ∧ t.writes = 0 := by
  refine ⟨aliased_needsUpdate_false cfg hc hk s, ?_⟩
  cases hw : isDaprTrustBundleSecret cfg req
  · exact ⟨⟨0, 0, none, true⟩, by simp [Reconcile, hw], rfl⟩
  · cases f with
    | err => exact ⟨⟨1, 0, none, false⟩, by simp [Reconcile, hw], rfl⟩
    | ok s' =>
      exact ⟨⟨1, 0, none, true⟩,
        by simp [Reconcile, hw, aliased_needsUpdate_false cfg hc hk s'], rfl⟩

/-- A configuration whose destination keys coincide with its source keys. -/
def aliasedConfig : Config :=
  { daprTrustBundleNamespace := ""
    daprTrustBundleName := "dapr-trust-bundle"
    certSourceKey := "tls.crt"
    certDestKey := "tls.crt"
    keySourceKey := "tls.key"
    keyDestKey := "tls.key" }

/-- C10 witness: the aliased-configuration theorem at a concrete payload. -/
theorem claim10_witness :
    (aliasedConfig.certDestKey = aliasedConfig.certSourceKey ∧
     aliasedConfig.keyDestKey = aliasedConfig.keySourceKey) ∧
    (needsDaprTrustBundleSecretUpdate aliasedConfig
        ⟨some [("tls.crt", [9]), ("tls.key", [8])]⟩ = false ∧
     ∃ t, Reconcile aliasedConfig defaultKey
        (FetchResult.ok ⟨some [("tls.crt", [9]), ("tls.key", [8])]⟩)
        UpdateResult.ok = some t ∧ t.writes = 0) :=
  ⟨⟨by decide, by decide⟩,
   claim10_aliased_config_never_writes aliasedConfig
     ⟨some [("tls.crt", [9]), ("tls.key", [8])]⟩ defaultKey
     (FetchResult.ok ⟨some [("tls.crt", [9]), ("tls.key", [8])]⟩)
     UpdateResult.ok (by decide) (by decide)⟩
